import Mathlib

/-!
Shallow embedding of the browser-local persistence and reconciliation layer
of a client-only short-video app (feed, upload, profile, stories).

The embedding mirrors the TypeScript source:
* `src/utils/localStorage.ts` — the video / liked-set / profile stores over a
  flat key-value medium (`localStorage`), each store owning one key;
* the `VideoPlayer` component — `handleLikeClick`, `handleAddComment`;
* `src/views/Upload.tsx` — `handlePostVideo`;
* `src/App.tsx` — `handleVideoPosted` (reconciliation facade);
* the `Profile` view and `StoryUploadModal` — story publishing and the
  per-user story query.

JavaScript `Date.now()` and the random sources (`Math.random`, `uuidv4`) are
modelled as explicit parameters supplied by the environment, one per call
site, so that each distinct runtime read is a distinct parameter.  The
durable medium is a record with one cell per storage key; a cell is absent,
corrupt (unparsable JSON, which every store catches and replaces with its
safe default) or holds a parsed value.
-/

/-- Case conversion as performed by JavaScript `String.prototype.toLowerCase`,
restricted to the code points the source compares against (ASCII letters and
the Latin-1 uppercase range, which covers the accented letters appearing in
the reserved placeholder strings of `shouldIncludeVideo`). -/
def jsCharToLower (c : Char) : Char :=
  if 65 ≤ c.toNat ∧ c.toNat ≤ 90 then Char.ofNat (c.toNat + 32)
  else if 0xC0 ≤ c.toNat ∧ c.toNat ≤ 0xDE ∧ c.toNat ≠ 0xD7 then Char.ofNat (c.toNat + 32)
  else c

/-- JavaScript `toLowerCase` on a whole string (per-character map). -/
def jsToLower (s : String) : String :=
  ⟨s.data.map jsCharToLower⟩

/-- Whitespace characters removed by JavaScript `String.prototype.trim`
(the ones expressible in the embedding: space, tab, newline, carriage
return, vertical tab, form feed, no-break space). -/
def jsWhitespace (c : Char) : Bool :=
  c = ' ' || c = '\t' || c = '\n' || c = '\r' ||
  c = Char.ofNat 0x0b || c = Char.ofNat 0x0c || c = Char.ofNat 0xa0

/-- JavaScript `String.prototype.trim`: strip leading and trailing
whitespace. -/
def jsTrim (s : String) : String :=
  ⟨((s.data.dropWhile jsWhitespace).reverse.dropWhile jsWhitespace).reverse⟩

/-- The `Comment` entity of `src/types.ts`. -/
structure Comment where
  id : String
  username : String
  text : String
  timestamp : Int
deriving DecidableEq, Repr

/-- The `Video` entity of `src/types.ts`.  The optional `file` field holds an
in-process file handle (opaque here), present only on freshly uploaded
videos and stripped before persisting. -/
structure Video where
  id : String
  src : String
  description : String
  caption : String
  thumbnail : String
  likesCount : Int
  commentsCount : Int
  shares : Int
  artist : String
  file : Option Nat
  commentsData : List Comment
deriving DecidableEq, Repr

/-- The inclusion predicate of `src/utils/localStorage.ts`
(`shouldIncludeVideo`): a video is eligible for load/save unless its
description is one of two reserved placeholders or its artist
case-insensitively equals a reserved placeholder. -/
def shouldIncludeVideo (video : Video) : Bool :=
  video.description ≠ "teste" &&
  video.description ≠ "vídeo" &&
  jsToLower video.artist ≠ "você"

/-- Drop the transient `file` handle, as both `addVideo` and `updateVideo`
do before writing (`const \x7b file, ...rest \x7d = video`). -/
def stripFile (video : Video) : Video :=
  { video with file := none }

/-- One storage key's contents: missing, unparsable, or a parsed value. -/
inductive Cell (α : Type) where
  | absent : Cell α
  | corrupt : Cell α
  | val : α → Cell α
deriving DecidableEq, Repr

/-- A stored profile record of unknown vintage: the three fields added over
time may be missing (`none`).  A present but empty `displayId` is also
treated as missing by the source (`if (!storedProfile.displayId)`), hence
the `Option String`. -/
structure StoredProfile where
  id : String
  username : String
  bio : String
  profilePicture : String
  displayId : Option String
  followersCount : Option Int
  isFollowing : Option Bool
deriving DecidableEq, Repr

/-- The durable key-value medium, one cell per logical key:
`videos`, `liked_videos`, `profile`. -/
structure LocalStorage where
  videos : Cell (List Video)
  likedVideos : Cell (List String)
  profile : Cell StoredProfile
deriving DecidableEq, Repr

/-- The empty medium (fresh browser, nothing ever persisted). -/
def emptyStorage : LocalStorage :=
  { videos := .absent, likedVideos := .absent, profile := .absent }

/-- `loadVideos` of `src/utils/localStorage.ts`: read the `videos` key,
filter by the inclusion predicate, return the result; on a missing key or
a parse error return the empty list.  The function performs no write, so it
also returns the medium unchanged. -/
def loadVideos (s : LocalStorage) : List Video × LocalStorage :=
  match s.videos with
  | .val stored => (stored.filter shouldIncludeVideo, s)
  | _ => ([], s)

/-- `addVideo` of `src/utils/localStorage.ts`: a video failing the inclusion
predicate is silently rejected (current filtered list returned, nothing
written); otherwise it is prepended, the list is persisted with transient
fields stripped, and the in-memory list (still carrying the handle) is
returned. -/
def addVideo (newVideo : Video) (s : LocalStorage) : List Video × LocalStorage :=
  if shouldIncludeVideo newVideo then
    let existingVideos := (loadVideos s).1
    let s₁ := (loadVideos s).2
    let updatedVideos := newVideo :: existingVideos
    let videosToStore := updatedVideos.map stripFile
    (updatedVideos, { s₁ with videos := .val videosToStore })
  else
    loadVideos s

/-- `updateVideo` of `src/utils/localStorage.ts`: locate by id in the
current filtered collection; replace in place if the update still passes
the predicate, prepend as new if the id is absent, remove the id entirely
if the update fails the predicate; always re-persist the result (stripped)
and return it. -/
def updateVideo (updatedVideo : Video) (s : LocalStorage) : List Video × LocalStorage :=
  let existingVideos := (loadVideos s).1
  let s₁ := (loadVideos s).2
  let newVideosList :=
    if shouldIncludeVideo updatedVideo then
      if existingVideos.any (fun video => video.id = updatedVideo.id) then
        existingVideos.map (fun video =>
          if video.id = updatedVideo.id then updatedVideo else video)
      else
        updatedVideo :: existingVideos
    else
      existingVideos.filter (fun video => video.id ≠ updatedVideo.id)
  let videosToStore := newVideosList.map stripFile
  (newVideosList, { s₁ with videos := .val videosToStore })

/-- `loadLikedVideoIds`: read the liked-id set (serialized as an array);
missing key or parse error yields the empty set.  No write occurs. -/
def loadLikedVideoIds (s : LocalStorage) : List String × LocalStorage :=
  match s.likedVideos with
  | .val ids => (ids, s)
  | _ => ([], s)

/-- `saveLikedVideoIds`: overwrite the liked-id key. -/
def saveLikedVideoIds (likedIds : List String) (s : LocalStorage) : LocalStorage :=
  { s with likedVideos := .val likedIds }

/-- JavaScript `Set.prototype.add`: append the element if absent. -/
def setAdd (ids : List String) (id : String) : List String :=
  if ids.contains id then ids else ids ++ [id]

/-- JavaScript `Set.prototype.delete`: remove the element. -/
def setDelete (ids : List String) (id : String) : List String :=
  ids.filter (fun x => x ≠ id)

/-- The current-shape `Profile` record of `src/types.ts`. -/
structure Profile where
  id : String
  username : String
  bio : String
  profilePicture : String
  displayId : String
  followersCount : Int
  isFollowing : Bool
deriving DecidableEq, Repr

/-- Serialize a current-shape profile back into the stored form (all
optional fields present), as `JSON.stringify` of the full record does. -/
def toStoredProfile (p : Profile) : StoredProfile :=
  { id := p.id, username := p.username, bio := p.bio,
    profilePicture := p.profilePicture, displayId := some p.displayId,
    followersCount := some p.followersCount, isFollowing := some p.isFollowing }

/-- The display-id generator
`Math.floor(1000000 + Math.random() * 9000000).toString()`.  The random
draw is modelled by `r`, the value of `Math.floor(Math.random() * 9000000)`,
so `r < 9000000` in any real execution. -/
def mkDisplayId (r : Nat) : String :=
  Nat.repr (1000000 + r)

/-- The hard-coded default profile of `loadProfileData` (fresh uuid and a
fresh display-id draw). -/
def defaultProfile (uuid : String) (r : Nat) : Profile :=
  { id := uuid, username := "QuickVidUser",
    bio := "Welcome to my QuickVid profile!",
    profilePicture := "https://via.placeholder.com/150/000000/FFFFFF?text=QV",
    displayId := mkDisplayId r, followersCount := 0, isFollowing := false }

/-- `saveProfileData`: overwrite the singleton profile key. -/
def saveProfileData (p : Profile) (s : LocalStorage) : LocalStorage :=
  { s with profile := .val (toStoredProfile p) }

/-- `loadProfileData` of `src/utils/localStorage.ts`.  With a stored record:
backfill `displayId` (when missing or empty), `followersCount` and
`isFollowing`, re-persist, and return the record.  With no stored record, or
an unreadable one, return the hard-coded default — the source returns it
directly from the fallthrough path without calling `saveProfileData`.
`uuid` models the `uuidv4()` draw and `r` the display-id draw of this call. -/
def loadProfileData (uuid : String) (r : Nat) (s : LocalStorage) :
    Profile × LocalStorage :=
  match s.profile with
  | .val storedProfile =>
      let displayId :=
        match storedProfile.displayId with
        | some d => if d = "" then mkDisplayId r else d
        | none => mkDisplayId r
      let followersCount := storedProfile.followersCount.getD 0
      let isFollowing := storedProfile.isFollowing.getD false
      let p : Profile :=
        { id := storedProfile.id, username := storedProfile.username,
          bio := storedProfile.bio,
          profilePicture := storedProfile.profilePicture,
          displayId := displayId, followersCount := followersCount,
          isFollowing := isFollowing }
      (p, saveProfileData p s)
  | _ => (defaultProfile uuid r, s)

/-- `handleLikeClick` of the `VideoPlayer` component composed with the
`onVideoUpdate` callback (`App.handleVideoUpdate`, which persists through
`updateVideo`).  `isLiked` is the component state, initialized from the
liked set on mount and flipped on every click.  The handler reloads the
current liked ids, adjusts `likesCount` by minus one or plus one with no
lower bound, updates the liked set, saves it, and publishes the updated
video. -/
def handleLikeClick (isLiked : Bool) (video : Video) (s : LocalStorage) :
    Video × LocalStorage :=
  let currentLikedIds := (loadLikedVideoIds s).1
  let s₁ := (loadLikedVideoIds s).2
  let updatedVideo :=
    if isLiked then { video with likesCount := video.likesCount - 1 }
    else { video with likesCount := video.likesCount + 1 }
  let newLikedIds :=
    if isLiked then setDelete currentLikedIds video.id
    else setAdd currentLikedIds video.id
  let s₂ := saveLikedVideoIds newLikedIds s₁
  (updatedVideo, (updateVideo updatedVideo s₂).2)

/-- One like-toggle step of the reconciliation layer: the component's
`isLiked` flag flips, the video prop becomes the updated video (the parent
maps it back in), and the medium advances. -/
def likeToggleStep (st : Video × Bool × LocalStorage) :
    Video × Bool × LocalStorage :=
  ((handleLikeClick st.2.1 st.1 st.2.2).1, !st.2.1,
   (handleLikeClick st.2.1 st.1 st.2.2).2)

/-- A sequence of `n` like toggles. -/
def likeToggles (n : Nat) (st : Video × Bool × LocalStorage) :
    Video × Bool × LocalStorage :=
  match n with
  | 0 => st
  | n + 1 => likeToggles n (likeToggleStep st)

/-- `handleAddComment` of the `VideoPlayer` component: with
whitespace-only (or empty) text the guard `if (newCommentText.trim())`
fails and nothing happens (`none`); otherwise a comment with a fresh id,
the fixed local display name, the trimmed text and the current timestamp is
appended and `commentsCount` incremented, and the updated video is
published (`some`).  `freshId` models the `uuidv4()` draw and `now` the
`Date.now()` read. -/
def handleAddComment (freshId : String) (now : Int) (newCommentText : String)
    (video : Video) : Option Video :=
  if jsTrim newCommentText ≠ "" then
    some { video with
      commentsData := video.commentsData ++
        [{ id := freshId, username := "Você", text := jsTrim newCommentText,
           timestamp := now }],
      commentsCount := video.commentsCount + 1 }
  else
    none

/-- The video constructed by `handlePostVideo` of `src/views/Upload.tsx`
once its guards pass: fresh id, the preview as `src`, caption defaulting to
the description (`caption || description`), zero counters, empty comment
list, artist taken from the current profile, and the selected file handle
attached. -/
def handlePostVideo (uuid videoPreviewUrl description caption thumbnail : String)
    (selectedFile : Nat) (currentUserProfile : Profile) : Video :=
  { id := uuid, src := videoPreviewUrl, description := description,
    caption := if caption = "" then description else caption,
    thumbnail := thumbnail, likesCount := 0, commentsCount := 0, shares := 0,
    artist := currentUserProfile.username, file := some selectedFile,
    commentsData := [] }

/-- `handleVideoPosted` of `src/App.tsx`: prepend the new video to the
in-memory collection unconditionally and persist it through `addVideo`
(which may silently reject it). -/
def handleVideoPosted (newVideo : Video) (prevVideos : List Video)
    (s : LocalStorage) : List Video × LocalStorage :=
  (newVideo :: prevVideos, (addVideo newVideo s).2)

/-- The `Story` entity of `src/types.ts`. -/
structure Story where
  id : String
  userId : String
  username : String
  imageUrl : String
  audioUrl : Option String
  timestamp : Int
  expiryTime : Int
deriving DecidableEq, Repr

/-- The story built by the composite publish flow: `StoryUploadModal`
stamps `timestamp` from its own `Date.now()` read (`tModal`), then the
`Profile` view's `handlePublishStory` stamps the id and
`expiryTime = Date.now() + 24 * 60 * 60 * 1000` from a second read
(`tPublish`). -/
def publishStory (userId username imageUrl : String) (audioUrl : Option String)
    (tModal : Int) (uuid : String) (tPublish : Int) : Story :=
  { id := uuid, userId := userId, username := username, imageUrl := imageUrl,
    audioUrl := audioUrl, timestamp := tModal,
    expiryTime := tPublish + 24 * 60 * 60 * 1000 }

/-- The per-user story query of the `Profile` view
(`stories.filter(story => story.userId === profile.id)`); its result also
drives `hasActiveStories`. -/
def userStories (profileId : String) (stories : List Story) : List Story :=
  stories.filter (fun story => story.userId = profileId)

/-- Modelled from the spec: no function named `isActive` exists in the
source; the spec defines a story as active iff the current time is strictly
before its expiry time. -/
def storyIsActive (story : Story) (now : Int) : Bool :=
  now < story.expiryTime

/-- A video-store operation, for quantifying over call sequences. -/
inductive VideoOp where
  | add : Video → VideoOp
  | update : Video → VideoOp
deriving Repr

/-- Run one video-store operation against the medium. -/
def runVideoOp (s : LocalStorage) (op : VideoOp) : LocalStorage :=
  match op with
  | .add v => (addVideo v s).2
  | .update v => (updateVideo v s).2

/-- Run a sequence of video-store operations. -/
def runVideoOps (ops : List VideoOp) (s : LocalStorage) : LocalStorage :=
  ops.foldl runVideoOp s

/-! ### Basic store lemmas -/

/-- Reading the video key never changes the medium. -/
theorem loadVideos_snd (s : LocalStorage) : (loadVideos s).2 = s := by
  unfold loadVideos
  cases s.videos <;> rfl

/-- Reading the liked-id key never changes the medium. -/
theorem loadLikedVideoIds_snd (s : LocalStorage) : (loadLikedVideoIds s).2 = s := by
  unfold loadLikedVideoIds
  cases s.likedVideos <;> rfl

/-- Every video returned by `loadVideos` passes the inclusion predicate. -/
theorem loadVideos_mem (s : LocalStorage) (w : Video)
    (hw : w ∈ (loadVideos s).1) : shouldIncludeVideo w = true := by
  unfold loadVideos at hw
  cases h : s.videos with
  | val stored =>
      rw [h] at hw
      exact (List.mem_filter.mp hw).2
  | absent => rw [h] at hw; cases hw
  | corrupt => rw [h] at hw; cases hw

/-- Stripping the transient file handle does not affect the inclusion
predicate (it only reads `description` and `artist`). -/
theorem shouldIncludeVideo_stripFile (v : Video) :
    shouldIncludeVideo (stripFile v) = shouldIncludeVideo v := rfl

/-- The updated video published by a like click: `likesCount` moves by one
in the direction opposite to the current liked state, every other field is
untouched. -/
theorem handleLikeClick_fst (isLiked : Bool) (video : Video) (s : LocalStorage) :
    (handleLikeClick isLiked video s).1 =
      (if isLiked then { video with likesCount := video.likesCount - 1 }
       else { video with likesCount := video.likesCount + 1 }) := rfl

/-! ### Decimal-representation length -/

/-- Fuel-indexed digit accumulation of `Nat.toDigitsCore`: for a number
with exactly `k + 1` decimal digits and enough fuel, the output extends the
accumulator by `k + 1` characters. -/
theorem toDigitsCore_length (k : Nat) :
    ∀ fuel n ds, n < fuel → 10 ^ k ≤ n → n < 10 ^ (k + 1) →
      (Nat.toDigitsCore 10 fuel n ds).length = ds.length + (k + 1) := by
  induction k with
  | zero =>
      intro fuel n ds hfuel h1 h2
      match fuel, hfuel with
      | fuel + 1, _ =>
        have hdiv : n / 10 = 0 := Nat.div_eq_of_lt (by simpa using h2)
        simp [Nat.toDigitsCore, hdiv]
  | succ k ih =>
      intro fuel n ds hfuel h1 h2
      match fuel, hfuel with
      | fuel + 1, hfuel =>
        have h10 : 10 ≤ n := le_trans (by calc
          10 = 10 ^ 1 := by norm_num
          _ ≤ 10 ^ (k + 1) := Nat.pow_le_pow_right (by norm_num) (by omega)) h1
        have hpos : 0 < n := by omega
        have hdiv : n / 10 ≠ 0 := by
          have : 1 ≤ n / 10 := (Nat.le_div_iff_mul_le (by norm_num)).mpr (by omega)
          omega
        have hlow : 10 ^ k ≤ n / 10 :=
          (Nat.le_div_iff_mul_le (by norm_num)).mpr (by rw [← pow_succ]; exact h1)
        have hhigh : n / 10 < 10 ^ (k + 1) :=
          (Nat.div_lt_iff_lt_mul (by norm_num)).mpr (by rw [← pow_succ]; exact h2)
        have hfuel2 : n / 10 < fuel := by
          have : n / 10 < n := Nat.div_lt_self hpos (by norm_num)
          omega
        have step :
            Nat.toDigitsCore 10 (fuel + 1) n ds =
              Nat.toDigitsCore 10 fuel (n / 10)
                (Nat.digitChar (n % 10) :: ds) := by
          simp [Nat.toDigitsCore, hdiv]
        rw [step, ih fuel (n / 10) _ hfuel2 hlow hhigh]
        simp
        omega

/-- The decimal representation of a number in `[10^6, 10^7)` has exactly
seven characters. -/
theorem repr_length_seven (n : Nat) (h1 : 1000000 ≤ n) (h2 : n < 10000000) :
    (Nat.repr n).length = 7 := by
  have h := toDigitsCore_length 6 (n + 1) n [] (by omega) (by norm_num; omega)
    (by norm_num; omega)
  simpa [Nat.repr, Nat.toDigits, String.length, List.asString] using h

/-- A seven-character string is not empty. -/
theorem ne_empty_of_length_seven (s : String) (h : s.length = 7) : s ≠ "" := by
  intro he
  rw [he] at h
  simp at h

/-! ### Trim lemmas -/

/-- Trimming a string of nothing but whitespace gives the empty string. -/
theorem jsTrim_eq_empty (s : String)
    (h : ∀ c ∈ s.data, jsWhitespace c = true) : jsTrim s = "" := by
  unfold jsTrim
  have h1 : s.data.dropWhile jsWhitespace = [] :=
    List.dropWhile_eq_nil_iff.mpr h
  rw [h1]
  rfl

/-- A string containing a non-whitespace character trims to a non-empty
string. -/
theorem jsTrim_ne_empty (s : String) (c : Char) (hc : c ∈ s.data)
    (hw : jsWhitespace c = false) : jsTrim s ≠ "" := by
  have mem_drop : ∀ (l : List Char), c ∈ l → c ∈ l.dropWhile jsWhitespace := by
    intro l hl
    have hsplit := List.takeWhile_append_dropWhile jsWhitespace l
    rw [← hsplit] at hl
    rcases List.mem_append.mp hl with htake | hdrop
    · exact absurd (List.mem_takeWhile_imp htake) (by simp [hw])
    · exact hdrop
  have h1 : c ∈ s.data.dropWhile jsWhitespace := mem_drop _ hc
  have h2 : c ∈ (s.data.dropWhile jsWhitespace).reverse := by simpa using h1
  have h3 : c ∈ (s.data.dropWhile jsWhitespace).reverse.dropWhile jsWhitespace :=
    mem_drop _ h2
  intro he
  have h4 : ((s.data.dropWhile jsWhitespace).reverse.dropWhile jsWhitespace).reverse
      = [] := congrArg String.data he
  have h5 : (s.data.dropWhile jsWhitespace).reverse.dropWhile jsWhitespace = [] :=
    List.reverse_eq_nil_iff.mp h4
  rw [h5] at h3
  cases h3

/-! ### Sample entities used by witnesses and counterexamples -/

/-- A scaffolding video carrying the reserved placeholder description, so
it fails the inclusion predicate. -/
def testeVideo : Video :=
  { id := "v-teste", src := "blob:1", description := "teste", caption := "c",
    thumbnail := "t", likesCount := 0, commentsCount := 0, shares := 0,
    artist := "X", file := none, commentsData := [] }

/-- An ordinary video that passes the inclusion predicate. -/
def okVideo : Video :=
  { id := "w1", src := "blob:2", description := "meu gato", caption := "gato",
    thumbnail := "t1", likesCount := 5, commentsCount := 0, shares := 0,
    artist := "Ana", file := none, commentsData := [] }

/-- A second ordinary video with a distinct id. -/
def okVideo2 : Video :=
  { id := "v1", src := "blob:3", description := "praia", caption := "praia",
    thumbnail := "t2", likesCount := 0, commentsCount := 0, shares := 0,
    artist := "Bruno", file := none, commentsData := [] }

/-- A medium whose stored video collection is just `okVideo`. -/
def storeWithOkVideo : LocalStorage :=
  { videos := .val [okVideo], likedVideos := .absent, profile := .absent }

/-- A medium in which `okVideo2`'s id is already in the liked set while the
video's own counter is zero (the documented weak-consistency state of the
dual-write design). -/
def likedZeroStorage : LocalStorage :=
  { videos := .val [okVideo2], likedVideos := .val ["v1"], profile := .absent }

/-- A story whose 24 hours have elapsed at the times used below. -/
def staleStory : Story :=
  { id := "s1", userId := "p1", username := "ana", imageUrl := "img",
    audioUrl := none, timestamp := 0, expiryTime := 86400000 }

/-! ### C1 — the like-toggle clamp claim -/

/-- Along a like-toggle sequence the flag/counter pair alternates between
(false, base) and (true, base + 1): each toggle adds one when the flag is
off and subtracts one when it is on, and flips the flag. -/
theorem likeToggles_alternate (base : Int) (n : Nat) :
    ∀ st : Video × Bool × LocalStorage,
      ((st.2.1 = false ∧ st.1.likesCount = base) ∨
       (st.2.1 = true ∧ st.1.likesCount = base + 1)) →
      (((likeToggles n st).2.1 = false ∧ (likeToggles n st).1.likesCount = base) ∨
       ((likeToggles n st).2.1 = true ∧
        (likeToggles n st).1.likesCount = base + 1)) := by
  induction n with
  | zero => intro st h; simpa [likeToggles] using h
  | succ n ih =>
      intro st h
      show ((likeToggles n (likeToggleStep st)).2.1 = false ∧ _) ∨ _
      apply ih
      rcases h with ⟨h1, h2⟩ | ⟨h1, h2⟩
      · right
        refine ⟨by simp [likeToggleStep, h1], ?_⟩
        simp [likeToggleStep, h1, handleLikeClick_fst, h2]
      · left
        refine ⟨by simp [likeToggleStep, h1], ?_⟩
        simp [likeToggleStep, h1, handleLikeClick_fst, h2]

/-- C1 (counterexample): through the reconciliation layer, toggling like
off on a video whose `likesCount` is 0 while its id is in the liked set
produces -1 — `handleLikeClick` subtracts one with no clamp — refuting the
claim that `likesCount` never becomes negative. -/
theorem like_clamp_counterexample :
    (loadLikedVideoIds likedZeroStorage).1.contains okVideo2.id = true ∧
    okVideo2.likesCount = 0 ∧
    (handleLikeClick true okVideo2 likedZeroStorage).1.likesCount = -1 ∧
    ¬ 0 ≤ (handleLikeClick true okVideo2 likedZeroStorage).1.likesCount := by
  refine ⟨by decide, by decide, by decide, by decide⟩

/-- C1 (amended): the source applies no clamp, and toggling like off at
zero while liked yields -1; what does hold is that for every toggle
sequence starting from a state where the video's id is not in the liked
set (so the component's initial liked flag, loaded from the set, is false)
and `likesCount` is nonnegative, `likesCount` stays nonnegative after any
number of toggles. -/
theorem like_toggle_nonneg (video : Video) (s : LocalStorage) (n : Nat)
    (hmem : ((loadLikedVideoIds s).1.contains video.id) = false)
    (h0 : 0 ≤ video.likesCount) :
    0 ≤ (likeToggles n
      (video, (loadLikedVideoIds s).1.contains video.id, s)).1.likesCount := by
  rw [hmem]
  have h := likeToggles_alternate video.likesCount n (video, false, s)
    (Or.inl ⟨rfl, rfl⟩)
  rcases h with ⟨_, h2⟩ | ⟨_, h2⟩ <;> rw [h2] <;> omega

/-- C1 amended, at a concrete input: three toggles on a video that starts
unliked with five likes keep the counter nonnegative. -/
theorem like_toggle_nonneg_witness :
    ((loadLikedVideoIds storeWithOkVideo).1.contains okVideo.id) = false ∧
    0 ≤ okVideo.likesCount ∧
    0 ≤ (likeToggles 3
      (okVideo, (loadLikedVideoIds storeWithOkVideo).1.contains okVideo.id,
       storeWithOkVideo)).1.likesCount :=
  ⟨by decide, by decide,
   like_toggle_nonneg okVideo storeWithOkVideo 3 (by decide) (by decide)⟩

/-! ### C2 — first-use profile load -/

/-- C2 (counterexample): on a medium with no persisted profile,
`loadProfileData` returns the synthesized default WITHOUT persisting it —
the medium comes back unchanged — so a second load synthesizes a fresh
default: with the first call drawing 0 and the second drawing 1, the two
display ids differ, refuting the "persists it" and "identical displayId"
parts of the claim. -/
theorem profile_load_counterexample :
    (loadProfileData "u1" 0 emptyStorage).2 = emptyStorage ∧
    (loadProfileData "u1" 0 emptyStorage).1.displayId = "1000000" ∧
    (loadProfileData "u2" 1 (loadProfileData "u1" 0 emptyStorage).2).1.displayId
      = "1000001" ∧
    (loadProfileData "u2" 1 (loadProfileData "u1" 0 emptyStorage).2).1.displayId
      ≠ (loadProfileData "u1" 0 emptyStorage).1.displayId := by
  refine ⟨rfl, by decide, by decide, by decide⟩

/-- C2 (amended): with no stored profile (or an unreadable one),
`loadProfileData` synthesizes and returns the default record — non-empty
7-digit display id, followersCount 0 — but does not persist it: the medium
is unchanged, and every subsequent load again synthesizes a fresh default
whose display id comes from that call's own random draw, so the second
load returns the identical record only when the draws coincide. -/
theorem loadProfileData_first_use (uuid : String) (r : Nat) (s : LocalStorage)
    (hp : s.profile = Cell.absent ∨ s.profile = Cell.corrupt)
    (hr : r < 9000000) :
    (loadProfileData uuid r s).1 = defaultProfile uuid r ∧
    (loadProfileData uuid r s).1.followersCount = 0 ∧
    (loadProfileData uuid r s).1.displayId.length = 7 ∧
    (loadProfileData uuid r s).1.displayId ≠ "" ∧
    (loadProfileData uuid r s).2 = s ∧
    (∀ uuid₂ r₂,
      (loadProfileData uuid₂ r₂ (loadProfileData uuid r s).2).1.displayId =
        mkDisplayId r₂ ∧
      (loadProfileData uuid₂ r₂ (loadProfileData uuid r s).2).2 = s) := by
  have hload : loadProfileData uuid r s = (defaultProfile uuid r, s) := by
    rcases hp with hp | hp <;> · unfold loadProfileData; rw [hp]
  have hlen : (mkDisplayId r).length = 7 :=
    repr_length_seven (1000000 + r) (by omega) (by omega)
  refine ⟨by rw [hload], by rw [hload]; rfl, ?_, ?_, by rw [hload], ?_⟩
  · rw [hload]; exact hlen
  · rw [hload]; exact ne_empty_of_length_seven _ hlen
  · intro uuid₂ r₂
    have hload₂ : loadProfileData uuid₂ r₂ s = (defaultProfile uuid₂ r₂, s) := by
      rcases hp with hp | hp <;> · unfold loadProfileData; rw [hp]
    rw [hload, hload₂]
    exact ⟨rfl, rfl⟩

/-- C2 amended, at a concrete input: the empty medium with draw 0. -/
theorem loadProfileData_first_use_witness :
    (emptyStorage.profile = Cell.absent ∨ emptyStorage.profile = Cell.corrupt) ∧
    (0 : Nat) < 9000000 ∧
    (loadProfileData "u1" 0 emptyStorage).1 = defaultProfile "u1" 0 ∧
    (loadProfileData "u1" 0 emptyStorage).1.displayId.length = 7 ∧
    (loadProfileData "u1" 0 emptyStorage).2 = emptyStorage :=
  have h := loadProfileData_first_use "u1" 0 emptyStorage (Or.inl rfl) (by decide)
  ⟨Or.inl rfl, by decide, h.1, h.2.2.1, h.2.2.2.2.1⟩

/-! ### C3 — exclusion symmetry -/

/-- C3: a video failing the inclusion predicate never appears in the
result of `loadVideos` after any sequence of `addVideo`/`updateVideo`
calls: the read path filters it out, the add path refuses to write (the
medium is unchanged), and the update path removes its id from the result. -/
theorem excluded_video_never_loaded (v : Video)
    (hv : shouldIncludeVideo v = false) :
    (∀ ops s, v ∉ (loadVideos (runVideoOps ops s)).1) ∧
    (∀ s, (addVideo v s).2 = s) ∧
    (∀ s, ∀ w ∈ (updateVideo v s).1, w.id ≠ v.id) ∧
    (∀ s, v ∉ (loadVideos s).1) := by
  have hnot : ∀ s, v ∉ (loadVideos s).1 := by
    intro s hmem
    have h := loadVideos_mem s v hmem
    rw [hv] at h
    cases h
  refine ⟨fun ops s => hnot _, fun s => ?_, fun s w hw => ?_, hnot⟩
  · unfold addVideo
    rw [hv]
    simp [loadVideos_snd]
  · unfold updateVideo at hw
    rw [hv] at hw
    simp only [Bool.false_eq_true, if_false] at hw
    have := (List.mem_filter.mp hw).2
    simpa using this

/-! ### C3 witness -/

/-- C3 at a concrete input: the placeholder-description video is absent
from `loadVideos` after being both added and updated. -/
theorem excluded_video_never_loaded_witness :
    shouldIncludeVideo testeVideo = false ∧
    testeVideo ∉ (loadVideos (runVideoOps
      [VideoOp.add testeVideo, VideoOp.update testeVideo] emptyStorage)).1 :=
  ⟨by decide, (excluded_video_never_loaded testeVideo (by decide)).1 _ _⟩

/-! ### C4 — rejected publish as a no-op -/

/-- C4 (counterexample): publishing a video that fails the inclusion
predicate is not a no-op for the in-memory collection: `handleVideoPosted`
prepends it to application state unconditionally, so the collection after
the publish differs from the collection before it. -/
theorem rejected_publish_counterexample :
    shouldIncludeVideo testeVideo = false ∧
    (handleVideoPosted testeVideo [] emptyStorage).1 = [testeVideo] ∧
    (handleVideoPosted testeVideo [] emptyStorage).1 ≠ ([] : List Video) := by
  refine ⟨by decide, rfl, by decide⟩

/-- C4 (amended): the rejected video is indeed not persisted — the durable
medium is unchanged and the video is absent from every subsequent
`loadVideos` — but the in-memory published collection becomes the rejected
video prepended to the previous collection: the no-op holds at the storage
layer, not in application state. -/
theorem rejected_publish_storage_noop (v : Video) (prev : List Video)
    (s : LocalStorage) (hv : shouldIncludeVideo v = false) :
    (handleVideoPosted v prev s).2 = s ∧
    (handleVideoPosted v prev s).1 = v :: prev ∧
    v ∉ (loadVideos (handleVideoPosted v prev s).2).1 := by
  have hadd : (addVideo v s).2 = s := by
    unfold addVideo
    rw [hv]
    simp [loadVideos_snd]
  refine ⟨?_, rfl, ?_⟩
  · show (addVideo v s).2 = s
    exact hadd
  · show v ∉ (loadVideos (addVideo v s).2).1
    rw [hadd]
    intro hmem
    have h := loadVideos_mem s v hmem
    rw [hv] at h
    cases h

/-- C4 amended, at a concrete input: the placeholder video against a
medium already holding one good video. -/
theorem rejected_publish_storage_noop_witness :
    shouldIncludeVideo testeVideo = false ∧
    (handleVideoPosted testeVideo [okVideo] storeWithOkVideo).2 =
      storeWithOkVideo ∧
    (handleVideoPosted testeVideo [okVideo] storeWithOkVideo).1 =
      [testeVideo, okVideo] :=
  have h := rejected_publish_storage_noop testeVideo [okVideo] storeWithOkVideo
    (by decide)
  ⟨by decide, h.1, h.2.1⟩

/-! ### C5 — story expiry as a read-time filter -/

/-- C5 (counterexample): the story query of the Profile view filters only
by owner id, so a story whose expiry has passed (queried 25 hours after
creation) is still in the result, refuting the claim that expired stories
are excluded from active-story queries. -/
theorem expired_story_counterexample :
    storyIsActive staleStory (staleStory.timestamp + 90000000) = false ∧
    userStories "p1" [staleStory] = [staleStory] := by
  refine ⟨by decide, by decide⟩

/-- C5 (amended): activity in the spec's sense is the pure timestamp
predicate now < expiryTime — for a story whose two publish clock reads
coincide at t it holds at t + 1 hour and fails at t + 25 hours — and
expiry deletes nothing; but the code's story query (`userStories`, which
also drives `hasActiveStories`) filters by owner only, so a stored story
with matching owner is in the result regardless of expiry. -/
theorem story_expiry_amended (userId username imageUrl : String)
    (audioUrl : Option String) (t : Int) (uuid pid : String)
    (stories : List Story) (st : Story) :
    storyIsActive (publishStory userId username imageUrl audioUrl t uuid t)
      (t + 3600000) = true ∧
    storyIsActive (publishStory userId username imageUrl audioUrl t uuid t)
      (t + 90000000) = false ∧
    (st ∈ stories → st.userId = pid → st ∈ userStories pid stories) := by
  refine ⟨?_, ?_, fun hmem hid => ?_⟩
  · simp only [storyIsActive, publishStory, decide_eq_true_eq]
    omega
  · simp only [storyIsActive, publishStory, decide_eq_false_iff_not]
    omega
  · simp only [userStories, List.mem_filter]
    exact ⟨hmem, by simp [hid]⟩

/-- C5 amended, at a concrete input: the expired story still appears in
its owner's query, and a freshly published story is active an hour in. -/
theorem story_expiry_amended_witness :
    staleStory ∈ userStories "p1" [staleStory] ∧
    storyIsActive (publishStory "p1" "ana" "img" none 0 "s2" 0)
      ((0 : Int) + 3600000) = true :=
  ⟨(story_expiry_amended "p1" "ana" "img" none 0 "s2" "p1" [staleStory]
      staleStory).2.2 (by simp) (by decide),
   (story_expiry_amended "p1" "ana" "img" none 0 "s2" "p1" [staleStory]
      staleStory).1⟩

/-! ### C6 — the 24-hour expiry stamp -/

/-- C6 (counterexample): `expiryTime` is stamped from a second `Date.now()`
read in `handlePublishStory`, not from the story's `timestamp` (stamped
earlier in the upload modal): when the clock advances by one millisecond
between the two reads, the exact 24-hour relation to `timestamp` fails. -/
theorem story_offset_counterexample :
    (publishStory "p1" "ana" "img" none 0 "s1" 1).timestamp = 0 ∧
    (publishStory "p1" "ana" "img" none 0 "s1" 1).expiryTime = 86400001 ∧
    (publishStory "p1" "ana" "img" none 0 "s1" 1).expiryTime ≠
      (publishStory "p1" "ana" "img" none 0 "s1" 1).timestamp + 86400000 := by
  refine ⟨rfl, by decide, by decide⟩

/-- C6 (amended): `expiryTime` equals the publish handler's own clock
reading plus exactly 86,400,000 ms, and `timestamp` is the modal's earlier
reading; `expiryTime = timestamp + 86,400,000` holds exactly when the two
reads coincide. -/
theorem story_expiry_offset (userId username imageUrl : String)
    (audioUrl : Option String) (tModal tPublish : Int) (uuid : String) :
    (publishStory userId username imageUrl audioUrl tModal uuid
      tPublish).expiryTime = tPublish + 86400000 ∧
    (publishStory userId username imageUrl audioUrl tModal uuid
      tPublish).timestamp = tModal ∧
    (tModal = tPublish →
      (publishStory userId username imageUrl audioUrl tModal uuid
        tPublish).expiryTime =
      (publishStory userId username imageUrl audioUrl tModal uuid
        tPublish).timestamp + 86400000) := by
  refine ⟨by simp [publishStory], rfl, fun h => ?_⟩
  simp [publishStory, h]

/-- C6 amended, at a concrete input: both clock reads at 5. -/
theorem story_expiry_offset_witness :
    (publishStory "p1" "ana" "img" none 5 "s1" 5).expiryTime =
      (5 : Int) + 86400000 ∧
    (publishStory "p1" "ana" "img" none 5 "s1" 5).expiryTime =
      (publishStory "p1" "ana" "img" none 5 "s1" 5).timestamp + 86400000 :=
  have h := story_expiry_offset "p1" "ana" "img" none 5 5 "s1"
  ⟨h.1, h.2.2 rfl⟩

/-! ### C7 — updateVideo branch behavior -/

/-- Reading a medium whose video key holds `l` yields `l` filtered. -/
theorem loadVideos_val (s : LocalStorage) (l : List Video)
    (h : s.videos = Cell.val l) :
    (loadVideos s).1 = l.filter shouldIncludeVideo := by
  unfold loadVideos
  rw [h]

/-- Every element of the collection returned by `updateVideo` passes the
inclusion predicate: its inputs are the filtered load plus the update
itself, kept only when it passes. -/
theorem updateVideo_mem_include (v : Video) (s : LocalStorage) :
    ∀ w ∈ (updateVideo v s).1, shouldIncludeVideo w = true := by
  intro w hw
  unfold updateVideo at hw
  by_cases hv : shouldIncludeVideo v = true
  · simp only [hv, if_true] at hw
    by_cases hany :
        ((loadVideos s).1.any (fun video => video.id = v.id)) = true
    · simp only [hany, if_true] at hw
      rcases List.mem_map.mp hw with ⟨u, hu, hval⟩
      by_cases hid : u.id = v.id
      · rw [if_pos hid] at hval
        rw [← hval]
        exact hv
      · rw [if_neg hid] at hval
        rw [← hval]
        exact loadVideos_mem s u hu
    · simp only [hany, if_false] at hw
      rcases List.mem_cons.mp hw with hval | hu
      · rw [hval]; exact hv
      · exact loadVideos_mem s w hu
  · have hvf : shouldIncludeVideo v = false := by
      cases h : shouldIncludeVideo v
      · rfl
      · exact absurd h hv
    simp only [hvf, Bool.false_eq_true, if_false] at hw
    exact loadVideos_mem s w (List.mem_filter.mp hw).1

/-- C7 (counterexample): when the id is not present and the update passes
the predicate, `updateVideo` PREPENDS the video, so the result is not the
previous collection with the video appended at the end. -/
theorem updateVideo_prepend_counterexample :
    (loadVideos storeWithOkVideo).1 = [okVideo] ∧
    shouldIncludeVideo okVideo2 = true ∧
    okVideo2.id ∉ [okVideo].map Video.id ∧
    (updateVideo okVideo2 storeWithOkVideo).1 = [okVideo2, okVideo] ∧
    (updateVideo okVideo2 storeWithOkVideo).1 ≠
      (loadVideos storeWithOkVideo).1 ++ [okVideo2] := by
  refine ⟨by decide, by decide, by decide, by decide, by decide⟩

/-- C7 (amended): on the current filtered collection, `updateVideo`
replaces in place (preserving positions) when the id is present and the
update passes the predicate, removes the id when the update fails the
predicate, and PREPENDS (not appends) the update as new when the id is
absent and it passes; in every case the result is re-persisted (with
transient fields stripped) and reading the store back yields exactly the
persisted collection. -/
theorem updateVideo_behavior (v : Video) (s : LocalStorage) :
    (shouldIncludeVideo v = true →
      ((∃ w ∈ (loadVideos s).1, w.id = v.id) →
        (updateVideo v s).1 =
          (loadVideos s).1.map (fun w => if w.id = v.id then v else w)) ∧
      ((∀ w ∈ (loadVideos s).1, w.id ≠ v.id) →
        (updateVideo v s).1 = v :: (loadVideos s).1)) ∧
    (shouldIncludeVideo v = false →
      (updateVideo v s).1 =
        (loadVideos s).1.filter (fun w => w.id ≠ v.id)) ∧
    (updateVideo v s).2.videos =
      Cell.val ((updateVideo v s).1.map stripFile) ∧
    (loadVideos (updateVideo v s).2).1 = (updateVideo v s).1.map stripFile := by
  have hpersist : (updateVideo v s).2.videos =
      Cell.val ((updateVideo v s).1.map stripFile) := rfl
  refine ⟨fun hv => ⟨fun hex => ?_, fun hall => ?_⟩, fun hvf => ?_, hpersist, ?_⟩
  · rcases hex with ⟨w, hwmem, hwid⟩
    have hany : ((loadVideos s).1.any (fun video => video.id = v.id)) = true :=
      List.any_eq_true.mpr ⟨w, hwmem, by simp [hwid]⟩
    unfold updateVideo
    simp only [hv, if_true, hany]
  · have hany : ((loadVideos s).1.any (fun video => video.id = v.id)) = false := by
      cases h : ((loadVideos s).1.any (fun video => video.id = v.id))
      · rfl
      · rcases List.any_eq_true.mp h with ⟨w, hwmem, hwid⟩
        exact absurd (of_decide_eq_true hwid) (hall w hwmem)
    unfold updateVideo
    simp only [hv, if_true, hany, Bool.false_eq_true, if_false]
  · unfold updateVideo
    simp only [hvf, Bool.false_eq_true, if_false]
  · rw [loadVideos_val _ _ hpersist]
    apply List.filter_eq_self.mpr
    intro x hx
    rcases List.mem_map.mp hx with ⟨u, hu, hval⟩
    rw [← hval, shouldIncludeVideo_stripFile]
    exact updateVideo_mem_include v s u hu

/-- C7 amended, at a concrete input: updating an absent id that passes the
predicate prepends it to the collection. -/
theorem updateVideo_behavior_witness :
    shouldIncludeVideo okVideo2 = true ∧
    (updateVideo okVideo2 storeWithOkVideo).1 =
      okVideo2 :: (loadVideos storeWithOkVideo).1 :=
  ⟨by decide,
   ((updateVideo_behavior okVideo2 storeWithOkVideo).1 (by decide)).2
     (by decide)⟩

/-! ### C8 — the commentsCount invariant -/

/-- C8: video publish initializes `commentsCount` to 0 with empty
`commentsData`; an accepted comment-add appends exactly one comment and
increments `commentsCount` by exactly one; a like toggle changes neither
field — so `commentsCount = length commentsData` holds for a fresh video
and is preserved by every mutation. -/
theorem commentsCount_invariant
    (uuid src desc cap thumb : String) (fh : Nat) (prof : Profile)
    (freshId : String) (now : Int) (text : String) (video : Video)
    (liked : Bool) (s : LocalStorage)
    (hinv : video.commentsCount = (video.commentsData.length : Int)) :
    ((handlePostVideo uuid src desc cap thumb fh prof).commentsCount = 0 ∧
     (handlePostVideo uuid src desc cap thumb fh prof).commentsData = [] ∧
     (handlePostVideo uuid src desc cap thumb fh prof).commentsCount =
       ((handlePostVideo uuid src desc cap thumb fh prof).commentsData.length :
         Int)) ∧
    (∀ v2, handleAddComment freshId now text video = some v2 →
      v2.commentsData.length = video.commentsData.length + 1 ∧
      v2.commentsCount = video.commentsCount + 1 ∧
      v2.commentsCount = (v2.commentsData.length : Int)) ∧
    ((handleLikeClick liked video s).1.commentsCount = video.commentsCount ∧
     (handleLikeClick liked video s).1.commentsData = video.commentsData ∧
     (handleLikeClick liked video s).1.commentsCount =
       ((handleLikeClick liked video s).1.commentsData.length : Int)) := by
  refine ⟨⟨rfl, rfl, rfl⟩, fun v2 h => ?_, ?_⟩
  · unfold handleAddComment at h
    by_cases hc : jsTrim text = ""
    · rw [if_neg (by simp [hc])] at h
      cases h
    · rw [if_pos hc] at h
      have hv2 := Option.some.inj h
      rw [← hv2]
      refine ⟨by simp, rfl, ?_⟩
      simp only [List.length_append, List.length_singleton]
      rw [hinv]
      push_cast
      ring
  · rw [handleLikeClick_fst]
    cases liked <;> exact ⟨rfl, rfl, by simpa using hinv⟩

/-- C8 at a concrete input: a fresh video, a like toggle on it, and an
accepted comment on it all satisfy the invariant. -/
theorem commentsCount_invariant_witness :
    okVideo.commentsCount = (okVideo.commentsData.length : Int) ∧
    (handlePostVideo "u" "s" "d" "" "t" 1 (defaultProfile "p" 0)).commentsCount
      = 0 ∧
    (handleLikeClick false okVideo emptyStorage).1.commentsCount =
      ((handleLikeClick false okVideo emptyStorage).1.commentsData.length :
        Int) :=
  have h := commentsCount_invariant "u" "s" "d" "" "t" 1 (defaultProfile "p" 0)
    "c1" 7 "oi" okVideo false emptyStorage (by decide)
  ⟨by decide, h.1.1, h.2.2.2.2⟩

/-! ### C9 — comment-text validation -/

/-- C9: adding a comment whose text is empty or whitespace-only is
rejected — no comment is constructed, nothing is published, the video is
untouched; text with non-whitespace content yields exactly the comment
with the fresh id, the fixed local display name, the trimmed text and the
current timestamp appended, with `commentsCount` incremented to match. -/
theorem comment_add_validation (freshId : String) (now : Int) (text : String)
    (video : Video) :
    ((∀ c ∈ text.data, jsWhitespace c = true) →
      handleAddComment freshId now text video = none) ∧
    ((∃ c ∈ text.data, jsWhitespace c = false) →
      handleAddComment freshId now text video =
        some { video with
          commentsData := video.commentsData ++
            [{ id := freshId, username := "Você", text := jsTrim text,
               timestamp := now }],
          commentsCount := video.commentsCount + 1 }) := by
  constructor
  · intro h
    have hc : jsTrim text = "" := jsTrim_eq_empty text h
    unfold handleAddComment
    rw [if_neg (by simp [hc])]
  · rintro ⟨c, hc, hw⟩
    have hne : jsTrim text ≠ "" := jsTrim_ne_empty text c hc hw
    unfold handleAddComment
    rw [if_pos hne]

/-- C9 at a concrete input: a whitespace-only text is rejected, a text
with content is appended trimmed. -/
theorem comment_add_validation_witness :
    handleAddComment "c1" 7 "  " okVideo = none ∧
    handleAddComment "c2" 7 "  oi " okVideo =
      some { okVideo with
        commentsData := okVideo.commentsData ++
          [{ id := "c2", username := "Você", text := jsTrim "  oi ",
             timestamp := 7 }],
        commentsCount := okVideo.commentsCount + 1 } :=
  ⟨(comment_add_validation "c1" 7 "  " okVideo).1 (by decide),
   (comment_add_validation "c2" 7 "  oi " okVideo).2 ⟨'o', by decide, by decide⟩⟩

/-! ### C10 — loadVideos never writes -/

/-- C10: `loadVideos` performs no write: the medium after a call is
exactly the one before it; a stored collection is returned filtered but
kept intact in storage, so records failing the predicate are merely hidden
from the result while remaining stored. -/
theorem loadVideos_no_write (s : LocalStorage) :
    (loadVideos s).2 = s ∧
    (∀ stored, s.videos = Cell.val stored →
      (loadVideos s).1 = stored.filter shouldIncludeVideo ∧
      ((loadVideos s).2).videos = Cell.val stored ∧
      (∀ w ∈ stored, shouldIncludeVideo w = false →
        w ∉ (loadVideos s).1 ∧ w ∈ stored)) := by
  refine ⟨loadVideos_snd s, fun stored h => ⟨loadVideos_val s stored h, ?_, ?_⟩⟩
  · rw [loadVideos_snd s]
    exact h
  · intro w hw hwf
    refine ⟨fun hmem => ?_, hw⟩
    have hinc := loadVideos_mem s w hmem
    rw [hwf] at hinc
    cases hinc

/-- C10 at a concrete input: a medium storing one excluded and one
included video is unchanged by the read, and the excluded record is hidden
yet still stored. -/
theorem loadVideos_no_write_witness :
    (loadVideos
      { videos := .val [testeVideo, okVideo], likedVideos := .absent,
        profile := .absent }).2 =
      { videos := .val [testeVideo, okVideo], likedVideos := .absent,
        profile := .absent } ∧
    testeVideo ∉ (loadVideos
      { videos := .val [testeVideo, okVideo], likedVideos := .absent,
        profile := .absent }).1 :=
  have h := loadVideos_no_write
    { videos := .val [testeVideo, okVideo], likedVideos := .absent,
      profile := .absent }
  ⟨h.1, ((h.2 [testeVideo, okVideo] rfl).2.2 testeVideo (by simp)
    (by decide)).1⟩
